import Mathlib

/-!
Shallow embedding of src/src/ArucoTracker.cpp (ArucoTrackerNode).

The node detects ArUco markers in camera frames, estimates the physical
marker size from the pixel width of the top edge, the horizontal focal
length and the last ground-distance sample, builds a planar object-point
square, runs solvePnP and republishes the annotated frame.  External
primitives (cv_bridge decode, marker detection, solvePnP and the drawing
routines) are modelled as fields of an environment structure `Ext`; the
arithmetic of the node itself is modelled over exact rationals and reals,
with the float NaN and infinity outcomes of the division by the focal
length tracked by the explicit value type `FloatVal`.  The per-frame
control flow of `image_callback`, including the fact that the single
catch clause of the source only matches cv_bridge exceptions (so that an
exception thrown by solvePnP escapes the callback), is modelled by the
`Outcome` type: a thrown solvePnP error stops the marker loop and yields
`Outcome.uncaught` instead of a published frame.
-/

namespace ArucoTracker

/-- Pixel coordinates (cv Point2f) as exact rationals. -/
abbrev Point2 : Type := ℚ × ℚ

/-- Object points (cv Point3f) as reals. -/
abbrev Point3 : Type := ℝ × ℝ × ℝ

/-- Camera intrinsic matrix, 3 by 3 in pixels; the node only ever reads entry (0,0). -/
abbrev CamMat : Type := Fin 3 → Fin 3 → ℚ

/-- Distortion coefficient vector. -/
abbrev DistVec : Type := List ℚ

/-- Rotation and translation vectors produced by solvePnP. -/
structure Pose where
  rvec : ℝ × ℝ × ℝ
  tvec : ℝ × ℝ × ℝ

/-- One detected marker: its id and the four corner pixel coordinates in
detector order: top-left, top-right, bottom-right, bottom-left. -/
structure Marker where
  mid : ℤ
  c0 : Point2
  c1 : Point2
  c2 : Point2
  c3 : Point2
  deriving DecidableEq

/-- Classification of the float value `marker_size`: a finite real value,
a signed infinity, or NaN. -/
inductive FloatVal where
  | finite (x : ℝ)
  | posInf
  | negInf
  | nan

/-- Guard of line 92 of the source: not NaN and not infinite. -/
def FloatVal.isFinite : FloatVal → Bool
  | FloatVal.finite _ => true
  | _ => false

/-- Color encodings; the node decodes to and publishes BGR8. -/
inductive Encoding where
  | bgr8
  deriving DecidableEq

/-- Observable per-marker processing events, recorded in program order. -/
inductive Event where
  | markersDrawn
  | estimated (mid : ℤ)
  | solved (mid : ℤ) (objPts : List Point3)
  | axisDrawn (mid : ℤ)

/-- Incoming image message: a header (stands for stamp and frame id) plus
an opaque encoded payload. -/
structure InMsg where
  header : ℕ
  payload : ℕ
  deriving DecidableEq

/-- Outgoing image message. -/
structure OutMsg (Img : Type) where
  header : ℕ
  encoding : Encoding
  image : Img

/-- Result of one invocation of the image callback.  `decodeFailed` is the
caught cv_bridge exception path (logged, nothing published); `uncaught`
models an exception, thrown by solvePnP, that matches no catch clause of
the callback and escapes it, so nothing is published either. -/
inductive Outcome (Img : Type) where
  | published (out : OutMsg Img) (evs : List Event)
  | decodeFailed
  | uncaught (evs : List Event)

/-- Mutable member fields of ArucoTrackerNode.  The empty cv Mat, for a
calibration that failed to load, is `none`. -/
structure NodeState where
  ground_distance : ℚ
  camera_matrix : Option CamMat
  dist_coeffs : Option DistVec

/-- External primitives used by the node, treated as deterministic
functions.  `decodeFn` is cv_bridge toCvCopy (its error is the cv_bridge
exception), `detect` is cv aruco detectMarkers, `pnp` is cv solvePnP with
an error standing for a thrown cv exception, and the two draw functions
annotate the image.  `ubFx` models the unspecified value produced by
reading entry (0,0) of an empty matrix, which is undefined behaviour in
the source. -/
structure Ext (Img : Type) where
  decodeFn : ℕ → Except Unit Img
  detect : Img → List Marker
  drawMarkersFn : Img → Img
  pnp : List Point3 → List Point2 → Option CamMat → Option DistVec → Except Unit Pose
  drawAxisFn : Img → Pose → ℝ → Img
  ubFx : ℚ

variable {Img : Type}

/-- Initial value of the ground-distance member (line 24 of the source). -/
def initialGroundDistance : ℚ := 1

/-- Node state right after the constructor ran, with the given result of
loading the calibration file. -/
def initState (cam : Option CamMat) (dist : Option DistVec) : NodeState :=
  ⟨initialGroundDistance, cam, dist⟩

/-- Body of distance_sensor_callback (line 67): unconditional overwrite of
the stored ground distance with the incoming sample. -/
def distance_sensor_callback (st : NodeState) (d : ℚ) : NodeState :=
  { st with ground_distance := d }

/-- Squared Euclidean distance between two pixel points. -/
def pixelWidthSq (p q : Point2) : ℚ :=
  (p.1 - q.1) ^ 2 + (p.2 - q.2) ^ 2

/-- Euclidean pixel distance, cv norm of the corner difference (line 89). -/
noncomputable def pixelWidth (p q : Point2) : ℝ :=
  Real.sqrt ((pixelWidthSq p q : ℚ) : ℝ)

/-- Marker size as computed on line 90 of the source, with the float
outcomes of dividing by a zero focal length made explicit: a zero
denominator yields NaN (when the numerator is zero too, or when the
subsequent product multiplies the infinity by a zero ground distance) or
a signed infinity; any nonzero denominator yields the exact real value
(float rounding and overflow are idealized away). -/
noncomputable def markerSize (c0 c1 : Point2) (fx a : ℚ) : FloatVal :=
  if fx = 0 then
    if pixelWidthSq c0 c1 = 0 then FloatVal.nan
    else if 0 < a then FloatVal.posInf
    else if a < 0 then FloatVal.negInf
    else FloatVal.nan
  else FloatVal.finite (pixelWidth c0 c1 / (fx : ℝ) * (a : ℝ))

/-- Focal length value read by the node: entry (0,0) of the stored camera
matrix, or the unspecified value when the matrix is empty. -/
def fxOf (E : Ext Img) (st : NodeState) : ℚ :=
  match st.camera_matrix with
  | some M => M 0 0
  | none => E.ubFx

/-- Marker size of one detected marker as the loop body computes it:
pixel width of the top edge, divided by the focal length, times the
current ground distance. -/
noncomputable def markerSizeOf (E : Ext Img) (st : NodeState) (m : Marker) : FloatVal :=
  markerSize m.c0 m.c1 (fxOf E st) st.ground_distance

/-- Object points built on lines 94 to 99 of the source: a square of side
s centered at the origin with z = 0 for all four points, ordered to match
the detector corner order top-left, top-right, bottom-right, bottom-left. -/
noncomputable def objectPoints (s : ℝ) : List Point3 :=
  [(-(s / 2), s / 2, 0), (s / 2, s / 2, 0), (s / 2, -(s / 2), 0), (-(s / 2), -(s / 2), 0)]

/-- Corner list of one marker as handed to solvePnP. -/
def cornersList (m : Marker) : List Point2 :=
  [m.c0, m.c1, m.c2, m.c3]

/-- One iteration of the marker loop (lines 88 to 108): compute the marker
size, and when the guard passes, build the object points, run solvePnP
and draw the axis overlay.  Returns the annotated image, the events, and
the thrown solvePnP exception if any. -/
noncomputable def processMarker (E : Ext Img) (st : NodeState) (img : Img) (m : Marker) :
    Img × List Event × Option Unit :=
  match markerSizeOf E st m with
  | FloatVal.finite s =>
    match E.pnp (objectPoints s) (cornersList m) st.camera_matrix st.dist_coeffs with
    | Except.ok pose =>
      (E.drawAxisFn img pose s,
        [Event.estimated m.mid, Event.solved m.mid (objectPoints s), Event.axisDrawn m.mid],
        none)
    | Except.error e =>
      (img, [Event.estimated m.mid, Event.solved m.mid (objectPoints s)], some e)
  | _ => (img, [Event.estimated m.mid], none)

/-- The marker loop.  A thrown solvePnP exception stops the loop at the
failing marker, because no catch clause inside the loop exists in the
source. -/
noncomputable def runLoop (E : Ext Img) (st : NodeState) : List Marker → Img → Img × List Event × Option Unit
  | [], img => (img, [], none)
  | m :: rest, img =>
    let p := processMarker E st img m
    match p.2.2 with
    | some e => (p.1, p.2.1, some e)
    | none =>
      let r := runLoop E st rest p.1
      (r.1, p.2.1 ++ r.2.1, r.2.2)

/-- Body of image_callback (lines 70 to 120): decode, detect, draw the
detected markers and run the marker loop when any markers were found,
then publish the annotated frame under the input header with BGR8
encoding.  A decode failure is caught (cv_bridge exception) and nothing
is published; a solvePnP exception matches no catch clause and escapes,
so nothing is published either. -/
noncomputable def image_callback (E : Ext Img) (st : NodeState) (msg : InMsg) : Outcome Img :=
  match E.decodeFn msg.payload with
  | Except.error _ => Outcome.decodeFailed
  | Except.ok img0 =>
    match E.detect img0 with
    | [] => Outcome.published ⟨msg.header, Encoding.bgr8, img0⟩ []
    | m :: rest =>
      let r := runLoop E st (m :: rest) (E.drawMarkersFn img0)
      match r.2.2 with
      | none => Outcome.published ⟨msg.header, Encoding.bgr8, r.1⟩ (Event.markersDrawn :: r.2.1)
      | some _ => Outcome.uncaught (Event.markersDrawn :: r.2.1)

/-- Predicate observing whether an outcome published a frame. -/
def Outcome.isPublished : Outcome Img → Bool
  | Outcome.published _ _ => true
  | _ => false

/-- One asynchronous input delivered to the node: an image frame or a
distance-sensor sample. -/
inductive NodeInput where
  | frame (msg : InMsg)
  | distance (d : ℚ)

/-- Dispatch of one input to its callback.  The image callback mutates no
member field of the node (its body only reads them), so the state it
returns is the state it was given; the distance callback overwrites the
stored ground distance. -/
noncomputable def nodeStep (E : Ext Img) (st : NodeState) : NodeInput → NodeState × Option (Outcome Img)
  | NodeInput.frame msg => (st, some (image_callback E st msg))
  | NodeInput.distance d => (distance_sensor_callback st d, none)

/-- Sequential single-consumer run of the node over a list of inputs,
collecting the outcome of every frame callback. -/
noncomputable def runNode (E : Ext Img) : NodeState → List NodeInput → NodeState × List (Outcome Img)
  | st, [] => (st, [])
  | st, i :: rest =>
    let s := nodeStep E st i
    let r := runNode E s.1 rest
    (r.1, s.2.toList ++ r.2)

/-- Zero pose, used by the concrete test environments below. -/
def pose0 : Pose :=
  ⟨(0, 0, 0), (0, 0, 0)⟩

/-- Camera matrix whose entry (0,0) is the given focal length. -/
def camWithFx (fx : ℚ) : CamMat :=
  fun i j => if i = 0 ∧ j = 0 then fx else 0

/-- Node state with a loaded calibration of horizontal focal length fx and
stored ground distance a. -/
def stCalib (fx a : ℚ) : NodeState :=
  ⟨a, some (camWithFx fx), some [0, 0, 0, 0, 0]⟩

/-- Concrete detected marker with id 1; its top edge goes from (0,0) to
(30,40) and therefore has pixel width 50. -/
def mA : Marker :=
  ⟨1, (0, 0), (30, 40), (30, 10), (0, 10)⟩

/-- Second concrete detected marker, id 2. -/
def mB : Marker :=
  ⟨2, (100, 100), (130, 140), (130, 110), (100, 110)⟩

/-- Concrete environment over natural-number images: decode always
succeeds with image 0, both markers are detected, each draw call
increments the image, and solvePnP throws exactly on the corner list of
the first marker. -/
def extAB : Ext ℕ where
  decodeFn := fun _ => Except.ok 0
  detect := fun _ => [mA, mB]
  drawMarkersFn := fun i => i + 1
  pnp := fun _ cs _ _ => if cs = cornersList mA then Except.error () else Except.ok pose0
  drawAxisFn := fun i _ _ => i + 1
  ubFx := 0

/-- Concrete environment in which only marker mA is detected and solvePnP
always succeeds; the unspecified empty-matrix read yields 1. -/
def extNoCalib : Ext ℕ where
  decodeFn := fun _ => Except.ok 0
  detect := fun _ => [mA]
  drawMarkersFn := fun i => i + 1
  pnp := fun _ _ _ _ => Except.ok pose0
  drawAxisFn := fun i _ _ => i + 1
  ubFx := 1

theorem markerSize_of_fx_ne_zero (c0 c1 : Point2) (fx a : ℚ) (hfx : fx ≠ 0) :
    markerSize c0 c1 fx a = FloatVal.finite (pixelWidth c0 c1 / (fx : ℝ) * (a : ℝ)) := by
  simp [markerSize, hfx]

theorem fxOf_stCalib (E : Ext Img) (fx a : ℚ) : fxOf E (stCalib fx a) = fx := by
  simp [fxOf, stCalib, camWithFx]

theorem markerSizeOf_stCalib (E : Ext Img) (fx a : ℚ) (m : Marker) :
    markerSizeOf E (stCalib fx a) m = markerSize m.c0 m.c1 fx a := by
  rw [markerSizeOf, fxOf_stCalib]
  rfl

theorem pixelWidth_mA : pixelWidth mA.c0 mA.c1 = 50 := by
  have h : ((pixelWidthSq mA.c0 mA.c1 : ℚ) : ℝ) = 50 ^ 2 := by
    norm_num [pixelWidthSq, mA]
  rw [pixelWidth, h, Real.sqrt_sq (by norm_num)]

theorem markerSizeOf_mA (E : Ext Img) (fx a : ℚ) (hfx : fx ≠ 0) :
    markerSizeOf E (stCalib fx a) mA = FloatVal.finite (50 / (fx : ℝ) * (a : ℝ)) := by
  rw [markerSizeOf_stCalib, markerSize_of_fx_ne_zero _ _ _ _ hfx, pixelWidth_mA]

/-- Claim C1: for every detected marker, altitude value and horizontal
focal length, the marker size computed by the loop body equals the
Euclidean pixel distance of the top-left/top-right edge, divided by the
focal length, times the altitude; and for positive pixel width, focal
length and altitude the result is finite (the `FloatVal.finite`
constructor, i.e. the value is neither NaN nor infinite) and positive. -/
theorem marker_size_pinhole (E : Ext Img) (st : NodeState) (m : Marker)
    (hpw : 0 < pixelWidth m.c0 m.c1) (hfx : 0 < fxOf E st) (ha : 0 < st.ground_distance) :
    markerSizeOf E st m =
      FloatVal.finite (pixelWidth m.c0 m.c1 / (fxOf E st : ℝ) * (st.ground_distance : ℝ)) ∧
    pixelWidth m.c0 m.c1 =
      Real.sqrt (((m.c0.1 : ℝ) - (m.c1.1 : ℝ)) ^ 2 + ((m.c0.2 : ℝ) - (m.c1.2 : ℝ)) ^ 2) ∧
    0 < pixelWidth m.c0 m.c1 / (fxOf E st : ℝ) * (st.ground_distance : ℝ) := by
  refine ⟨?_, ?_, ?_⟩
  · exact markerSize_of_fx_ne_zero _ _ _ _ hfx.ne'
  · rw [pixelWidth, pixelWidthSq]
    push_cast
    ring_nf
  · have hfx' : (0 : ℝ) < (fxOf E st : ℝ) := by exact_mod_cast hfx
    have ha' : (0 : ℝ) < (st.ground_distance : ℝ) := by exact_mod_cast ha
    exact mul_pos (div_pos hpw hfx') ha'

/-- Witness for claim C1 at the scenario of the spec: pixel width 50,
focal length 500, altitude 2. -/
theorem marker_size_pinhole_witness :
    markerSizeOf extAB (stCalib 500 2) mA =
      FloatVal.finite (pixelWidth mA.c0 mA.c1 / ((fxOf extAB (stCalib 500 2) : ℚ) : ℝ)
        * ((stCalib 500 2).ground_distance : ℝ)) ∧
    pixelWidth mA.c0 mA.c1 =
      Real.sqrt (((mA.c0.1 : ℝ) - (mA.c1.1 : ℝ)) ^ 2 + ((mA.c0.2 : ℝ) - (mA.c1.2 : ℝ)) ^ 2) ∧
    0 < pixelWidth mA.c0 mA.c1 / ((fxOf extAB (stCalib 500 2) : ℚ) : ℝ)
        * ((stCalib 500 2).ground_distance : ℝ) :=
  marker_size_pinhole extAB (stCalib 500 2) mA
    (by rw [pixelWidth_mA]; norm_num)
    (by rw [fxOf_stCalib]; norm_num)
    (by norm_num [stCalib])

/-- Counterexample to claim C3: a negative distance sample (-5) delivered
to distance_sensor_callback in the initial state is stored, it is not
rejected, and the stored altitude does not retain its prior value 1. -/
theorem negative_sample_stored :
    (distance_sensor_callback (initState none none) (-5)).ground_distance = -5 ∧
    ¬ (distance_sensor_callback (initState none none) (-5)).ground_distance =
        (initState none none).ground_distance := by
  constructor
  · rfl
  · decide

/-- Claim C3 as amended: the altitude-update operation overwrites the
stored ground distance with the incoming sample unconditionally; negative
samples are stored like any other, and no other member field changes. -/
theorem altitude_update_unconditional (st : NodeState) (d : ℚ) :
    (distance_sensor_callback st d).ground_distance = d ∧
    (distance_sensor_callback st d).camera_matrix = st.camera_matrix ∧
    (distance_sensor_callback st d).dist_coeffs = st.dist_coeffs :=
  ⟨rfl, rfl, rfl⟩

theorem foldl_ground_distance (l : List ℚ) (st : NodeState) :
    (l.foldl distance_sensor_callback st).ground_distance =
      l.getLast?.getD st.ground_distance := by
  induction l generalizing st with
  | nil => rfl
  | cons d t ih =>
    rw [List.foldl_cons, ih]
    cases t with
    | nil => rfl
    | cons e u =>
      rw [List.getLast?_cons_cons]
      cases h : (e :: u).getLast? with
      | none => simp at h
      | some x => rfl

/-- Claim C8: the altitude member is initialized at startup to the strictly
positive placeholder 1 (never zero), and after any sequence of sensor
samples a read of the member returns the last-received value, or the
placeholder when no sample arrived yet; the read is a total function. -/
theorem altitude_state_last_value (cam : Option CamMat) (dist : Option DistVec)
    (samples : List ℚ) :
    0 < (initState cam dist).ground_distance ∧
    (samples.foldl distance_sensor_callback (initState cam dist)).ground_distance =
      samples.getLast?.getD initialGroundDistance := by
  constructor
  · norm_num [initState, initialGroundDistance]
  · rw [foldl_ground_distance]
    rfl

theorem processMarker_skip (E : Ext Img) (st : NodeState) (img : Img) (m : Marker)
    (h : (markerSizeOf E st m).isFinite = false) :
    processMarker E st img m = (img, [Event.estimated m.mid], none) := by
  cases hv : markerSizeOf E st m with
  | finite s => rw [hv] at h; simp [FloatVal.isFinite] at h
  | posInf => simp [processMarker, hv]
  | negInf => simp [processMarker, hv]
  | nan => simp [processMarker, hv]

theorem solved_event_of_finite (E : Ext Img) (st : NodeState) (img : Img) (m : Marker)
    (s : ℝ) (h : markerSizeOf E st m = FloatVal.finite s) :
    Event.solved m.mid (objectPoints s) ∈ (processMarker E st img m).2.1 := by
  unfold processMarker
  rw [h]
  cases hp : E.pnp (objectPoints s) (cornersList m) st.camera_matrix st.dist_coeffs with
  | ok pose => simp [hp]
  | error e => simp [hp]

/-- Claim C5: a marker whose estimated size is NaN or infinite is skipped:
the loop body records only the size computation for it, builds no object
points, runs no solvePnP and draws no axis overlay, it throws nothing,
and the loop continues so that every remaining marker of the frame is
processed exactly as it would have been without this marker. -/
theorem nonfinite_size_skips_marker (E : Ext Img) (st : NodeState) (m : Marker)
    (rest : List Marker) (img : Img)
    (h : (markerSizeOf E st m).isFinite = false) :
    processMarker E st img m = (img, [Event.estimated m.mid], none) ∧
    runLoop E st (m :: rest) img =
      ((runLoop E st rest img).1,
        Event.estimated m.mid :: (runLoop E st rest img).2.1,
        (runLoop E st rest img).2.2) := by
  have hp := processMarker_skip E st img m h
  refine ⟨hp, ?_⟩
  simp [runLoop, hp]

/-- Witness for claim C5: with a loaded calibration whose focal length is
zero and altitude 1, the size of marker mA is positive infinity, the
marker is skipped and the (empty) remainder of the loop still runs. -/
theorem nonfinite_size_skips_marker_witness :
    processMarker extAB (stCalib 0 1) (0 : ℕ) mA = (0, [Event.estimated mA.mid], none) ∧
    runLoop extAB (stCalib 0 1) [mA] (0 : ℕ) =
      ((runLoop extAB (stCalib 0 1) [] (0 : ℕ)).1,
        Event.estimated mA.mid :: (runLoop extAB (stCalib 0 1) [] (0 : ℕ)).2.1,
        (runLoop extAB (stCalib 0 1) [] (0 : ℕ)).2.2) :=
  nonfinite_size_skips_marker extAB (stCalib 0 1) mA [] 0
    (by rw [markerSizeOf_stCalib]; norm_num [markerSize, pixelWidthSq, mA, FloatVal.isFinite])

theorem markerSizeOf_mA_500_2 :
    markerSizeOf extAB (stCalib 500 2) mA = FloatVal.finite (1 / 5) := by
  rw [markerSizeOf_mA extAB 500 2 (by norm_num)]
  norm_num

/-- Claim C6: for every marker that passes the validity guard with
estimated size s, the object-point list handed to solvePnP is exactly the
four points (-s/2, s/2, 0), (s/2, s/2, 0), (s/2, -s/2, 0), (-s/2, -s/2, 0)
in that order: a square of side s centered at the origin with z = 0,
ordered top-left, top-right, bottom-right, bottom-left. -/
theorem object_points_canonical (E : Ext Img) (st : NodeState) (m : Marker) (img : Img)
    (s : ℝ) (h : markerSizeOf E st m = FloatVal.finite s) :
    Event.solved m.mid (objectPoints s) ∈ (processMarker E st img m).2.1 ∧
    objectPoints s =
      [(-(s / 2), s / 2, 0), (s / 2, s / 2, 0), (s / 2, -(s / 2), 0), (-(s / 2), -(s / 2), 0)] :=
  ⟨solved_event_of_finite E st img m s h, rfl⟩

/-- Witness for claim C6 at the scenario of the spec: altitude 2, pixel
width 50, focal length 500, so estimated size 1/5 = 0.2 and the square
has corners at plus and minus 1/10 = 0.1. -/
theorem object_points_canonical_witness :
    Event.solved mA.mid (objectPoints (1 / 5)) ∈
      (processMarker extAB (stCalib 500 2) (0 : ℕ) mA).2.1 ∧
    objectPoints (1 / 5) =
      [(-(1 / 5 / 2), 1 / 5 / 2, 0), (1 / 5 / 2, 1 / 5 / 2, 0),
        (1 / 5 / 2, -(1 / 5 / 2), 0), (-(1 / 5 / 2), -(1 / 5 / 2), 0)] :=
  object_points_canonical extAB (stCalib 500 2) mA 0 (1 / 5) markerSizeOf_mA_500_2

theorem markerSizeOf_mA_500_neg2 :
    markerSizeOf extAB (stCalib 500 (-2)) mA = FloatVal.finite (-(1 / 5)) := by
  rw [markerSizeOf_mA extAB 500 (-2) (by norm_num)]
  norm_num

/-- Claim C10: the validity guard of the loop body checks only for NaN and
infinity, so every finite non-positive estimated size (for example the
one produced by a negative stored altitude) passes the guard, the object
points built from it are handed to solvePnP and the solve is run; the
square is degenerate or inverted, in that the x coordinate of its first
point, labelled top left in the source, is not negative. -/
theorem nonpositive_size_passes_guard (E : Ext Img) (st : NodeState) (m : Marker)
    (img : Img) (s : ℝ)
    (h : markerSizeOf E st m = FloatVal.finite s) (hs : s ≤ 0) :
    (markerSizeOf E st m).isFinite = true ∧
    Event.solved m.mid (objectPoints s) ∈ (processMarker E st img m).2.1 ∧
    (objectPoints s).head? = some (-(s / 2), s / 2, 0) ∧ 0 ≤ -(s / 2) := by
  refine ⟨?_, solved_event_of_finite E st img m s h, rfl, by linarith⟩
  rw [h]
  rfl

/-- Witness for claim C10: with stored altitude -2 and focal length 500
the estimated size of marker mA is -1/5, finite and negative, the guard
passes and solvePnP is run on the inverted square. -/
theorem nonpositive_size_passes_guard_witness :
    (markerSizeOf extAB (stCalib 500 (-2)) mA).isFinite = true ∧
    Event.solved mA.mid (objectPoints (-(1 / 5))) ∈
      (processMarker extAB (stCalib 500 (-2)) (0 : ℕ) mA).2.1 ∧
    (objectPoints (-(1 / 5))).head? = some (-(-(1 / 5) / 2), -(1 / 5) / 2, 0) ∧
    (0 : ℝ) ≤ -(-(1 / 5) / 2) :=
  nonpositive_size_passes_guard extAB (stCalib 500 (-2)) mA 0 (-(1 / 5))
    markerSizeOf_mA_500_neg2 (by norm_num)

theorem markerSizeOf_mA_500_1 :
    markerSizeOf extAB (stCalib 500 1) mA = FloatVal.finite (1 / 10) := by
  rw [markerSizeOf_mA extAB 500 1 (by norm_num)]
  norm_num

theorem extAB_decode (p : ℕ) : extAB.decodeFn p = Except.ok 0 := rfl

theorem extAB_detect (i : ℕ) : extAB.detect i = [mA, mB] := rfl

theorem extAB_drawMarkers (i : ℕ) : extAB.drawMarkersFn i = i + 1 := rfl

theorem extAB_pnp_mA (pts : List Point3) (cam : Option CamMat) (dist : Option DistVec) :
    extAB.pnp pts (cornersList mA) cam dist = Except.error () := by
  simp [extAB]

theorem image_callback_extAB_eval (h : ℕ) (p : ℕ) :
    image_callback extAB (stCalib 500 1) ⟨h, p⟩ =
      Outcome.uncaught
        [Event.markersDrawn, Event.estimated mA.mid,
          Event.solved mA.mid (objectPoints (1 / 10))] := by
  simp [image_callback, runLoop, processMarker, markerSizeOf_mA_500_1,
    extAB_decode, extAB_detect, extAB_drawMarkers, extAB_pnp_mA]

/-- Claim C2 is violated by the code: the only catch clause of the image
callback matches cv_bridge exceptions, so an exception thrown by solvePnP
on one marker is not caught at per-marker scope.  In the environment
extAB the solve of marker mA (id 1) throws while marker mB (id 2) would
succeed; the callback stops at mA, records no event at all for mB and
publishes nothing, instead of continuing with mB and publishing the
annotated frame. -/
theorem pose_failure_aborts_frame :
    image_callback extAB (stCalib 500 1) ⟨5, 0⟩ =
      Outcome.uncaught
        [Event.markersDrawn, Event.estimated mA.mid,
          Event.solved mA.mid (objectPoints (1 / 10))] ∧
    (image_callback extAB (stCalib 500 1) ⟨5, 0⟩).isPublished = false := by
  refine ⟨image_callback_extAB_eval 5 0, ?_⟩
  rw [image_callback_extAB_eval 5 0]
  rfl

/-- Claim C7 is violated by the code: a frame that decodes successfully is
not always published, because a solvePnP exception escapes the callback
before the publish statement is reached.  In the environment extAB the
frame with header 9 decodes to image 0, yet the callback publishes
nothing. -/
theorem frame_publish_not_unconditional :
    extAB.decodeFn (0 : ℕ) = Except.ok 0 ∧
    (image_callback extAB (stCalib 500 1) ⟨9, 0⟩).isPublished = false := by
  refine ⟨rfl, ?_⟩
  rw [image_callback_extAB_eval 9 0]
  rfl

theorem extNoCalib_decode (p : ℕ) : extNoCalib.decodeFn p = Except.ok 0 := rfl

theorem extNoCalib_detect (i : ℕ) : extNoCalib.detect i = [mA] := rfl

theorem extNoCalib_drawMarkers (i : ℕ) : extNoCalib.drawMarkersFn i = i + 1 := rfl

theorem extNoCalib_pnp (pts : List Point3) (cs : List Point2) (cam : Option CamMat)
    (dist : Option DistVec) : extNoCalib.pnp pts cs cam dist = Except.ok pose0 := rfl

theorem extNoCalib_drawAxis (i : ℕ) (pose : Pose) (s : ℝ) :
    extNoCalib.drawAxisFn i pose s = i + 1 := rfl

theorem markerSizeOf_noCalib_mA :
    markerSizeOf extNoCalib (initState none none) mA = FloatVal.finite 50 := by
  have hfx : fxOf extNoCalib (initState none none) = 1 := by
    simp [fxOf, initState, extNoCalib]
  rw [markerSizeOf, hfx]
  rw [show (initState none none).ground_distance = 1 from rfl]
  rw [markerSize_of_fx_ne_zero _ _ _ _ (by norm_num), pixelWidth_mA]
  norm_num

/-- Claim C4 is violated by the code: when the calibration failed to load
(both stored matrices empty, modelled as none) the node still starts, but
the image callback does not refuse pose estimation: it computes a scale
estimate for every detected marker, reading entry (0,0) of the empty
matrix, which is undefined behaviour modelled by the unspecified value
ubFx, and it runs solvePnP on the resulting object points.  With ubFx = 1
the estimate for marker mA is 50, the guard passes, solvePnP runs and the
axis overlay is drawn. -/
theorem missing_calibration_still_estimates_and_solves :
    (initState none none).camera_matrix = none ∧
    (initState none none).dist_coeffs = none ∧
    image_callback extNoCalib (initState none none) ⟨3, 0⟩ =
      Outcome.published ⟨3, Encoding.bgr8, 2⟩
        [Event.markersDrawn, Event.estimated mA.mid,
          Event.solved mA.mid (objectPoints 50), Event.axisDrawn mA.mid] := by
  refine ⟨rfl, rfl, ?_⟩
  simp [image_callback, runLoop, processMarker, markerSizeOf_noCalib_mA,
    extNoCalib_decode, extNoCalib_detect, extNoCalib_drawMarkers, extNoCalib_pnp,
    extNoCalib_drawAxis]

/-- Claim C9: frame processing is deterministic and history free.  The
image callback mutates no member field, so running any number of frame
callbacks leaves the node state unchanged, and the outcome produced for a
frame after any history of previously processed frames is exactly the
value of image_callback at the current state and that frame: it depends
only on the frame content, the stored altitude and the stored calibration,
and two invocations with equal such data yield identical results. -/
theorem frame_processing_stateless (E : Ext Img) (st : NodeState) (msg : InMsg)
    (pre : List InMsg) :
    (runNode E st (pre.map NodeInput.frame)).1 = st ∧
    (runNode E st (pre.map NodeInput.frame ++ [NodeInput.frame msg])).2.getLast? =
      some (image_callback E st msg) := by
  induction pre with
  | nil =>
    exact ⟨rfl, by simp [runNode, nodeStep]⟩
  | cons p t ih =>
    obtain ⟨ih1, ih2⟩ := ih
    constructor
    · simpa [runNode, nodeStep] using ih1
    · simp only [List.map_cons, List.cons_append]
      simp only [runNode, nodeStep, Option.toList_some, List.singleton_append]
      cases hl : (runNode E st (t.map NodeInput.frame ++ [NodeInput.frame msg])).2 with
      | nil => rw [hl] at ih2; simp at ih2
      | cons b u =>
        rw [hl] at ih2
        rw [List.getLast?_cons_cons]
        exact ih2

end ArucoTracker
